import Mathlib

/-!
Shallow embedding of the AR product-viewer core from
`src/app/welcome/welcome.tsx` (duplicated in `src/unnamed/part_000`).

Numbers that the TypeScript code handles as JS `number` values are
modelled as exact rationals (`ℚ`), except that the result of the JS
`parseFloat` builtin is modelled by `JSNum`, which keeps the `NaN` and
infinity values `parseFloat` can produce.  DOM / viewer interactions are
modelled by explicit environments (which external call succeeds) and
traces of emitted side effects.
-/

/-- Model of a JS `number` as produced by `parseFloat`: either a finite
rational or one of the special values `NaN`, `+Infinity`, `-Infinity`. -/
inductive JSNum where
  | nan : JSNum
  | posInf : JSNum
  | negInf : JSNum
  | num : ℚ → JSNum
deriving DecidableEq

/-- Numeric value of a list of decimal digit characters, most significant
first (the usual positional reading used by `parseFloat`). -/
def digitsToNat (ds : List Char) : ℕ :=
  ds.foldl (fun a c => 10 * a + (c.toNat - 48)) 0

/-- Split a character list into its longest digit prefix and the rest. -/
def takeDigits (cs : List Char) : List Char × List Char :=
  (cs.takeWhile Char.isDigit, cs.dropWhile Char.isDigit)

/-- JS whitespace characters skipped by `parseFloat` (common subset). -/
def isSpaceChar (c : Char) : Bool :=
  c = ' ' || c = '\t' || c = '\n' || c = '\r'

/-- Syntactic analysis result of `parseFloat`: no numeric prefix at all
(`nan`), a signed `Infinity` literal, or a finite literal given by sign,
integer digits, fraction digits and decimal exponent. -/
inductive ScanResult where
  | nan : ScanResult
  | inf : Bool → ScanResult
  | finite : Bool → List Char → List Char → Int → ScanResult
deriving DecidableEq

/-- Exponent part of a JS float literal: `e`/`E`, optional sign, digits.
As in JS `parseFloat`, a missing digit run contributes exponent `0`. -/
def scanExponent : List Char → Int
  | c :: r =>
    if c = 'e' || c = 'E' then
      match r with
      | '+' :: r2 => (digitsToNat (takeDigits r2).1 : Int)
      | '-' :: r2 => -(digitsToNat (takeDigits r2).1 : Int)
      | _ => (digitsToNat (takeDigits r).1 : Int)
    else 0
  | [] => 0

/-- Syntactic front end of JS `parseFloat`: skip leading whitespace, read
an optional sign, then either the `Infinity` literal or a decimal
literal; if no digits are read at all the result is `NaN`. -/
def scanFloat (s : String) : ScanResult :=
  let cs := s.toList.dropWhile isSpaceChar
  let sc :=
    match cs with
    | '+' :: r => (false, r)
    | '-' :: r => (true, r)
    | _ => (false, cs)
  let neg := sc.1
  let cs1 := sc.2
  if cs1.take 8 = ['I', 'n', 'f', 'i', 'n', 'i', 't', 'y'] then
    ScanResult.inf neg
  else
    let ipRest := takeDigits cs1
    let ip := ipRest.1
    let fpRest :=
      match ipRest.2 with
      | '.' :: r => takeDigits r
      | _ => ([], ipRest.2)
    if ip = [] && fpRest.1 = [] then ScanResult.nan
    else ScanResult.finite neg ip fpRest.1 (scanExponent fpRest.2)

/-- Numeric value of a scan result (exact rational idealization of the
IEEE double JS would produce). -/
def floatValue : ScanResult → JSNum
  | ScanResult.nan => JSNum.nan
  | ScanResult.inf false => JSNum.posInf
  | ScanResult.inf true => JSNum.negInf
  | ScanResult.finite neg ip fp e =>
      JSNum.num ((if neg then (-1 : ℚ) else 1) *
        ((digitsToNat ip : ℚ) + (digitsToNat fp : ℚ) / 10 ^ fp.length) *
        (10 : ℚ) ^ e)

/-- Model of the JS `parseFloat` builtin used by `parseUrlParams`:
returns `NaN` exactly when the string has no parsable numeric prefix. -/
def parseFloat (s : String) : JSNum :=
  floatValue (scanFloat s)

/-- `Customization` record from the source (`scale` is a JS number,
so it may be `NaN` when the `scale` parameter does not parse). -/
structure Customization where
  color : String
  scale : JSNum
  pattern : String
  material : String
deriving DecidableEq

/-- Model of `URLSearchParams.get`: first value bound to the key, or
`none` (JS `null`) when the key is absent. -/
def getParam : List (String × String) → String → Option String
  | [], _ => none
  | (k2, v) :: rest, k => if k2 = k then some v else getParam rest k

/-- Model of the JS `||` fallback on `params.get(k) || dflt`: both `null`
(absent key) and the empty string are falsy and select the default. -/
def orDefault (v : Option String) (dflt : String) : String :=
  match v with
  | none => dflt
  | some s => if s = "" then dflt else s

/-- `parseUrlParams` from the source, with the URL query string modelled
as an association list of key/value pairs. -/
def parseUrlParams (params : List (String × String)) : Customization :=
  { color := orDefault (getParam params "color") "#FFFFFF"
    scale := parseFloat (orDefault (getParam params "scale") "1.0")
    pattern := orDefault (getParam params "pattern") "solid"
    material := orDefault (getParam params "material") "default" }

/-- `Dimensions` record from the source (meters, exact rationals). -/
structure Dimensions where
  width : ℚ
  height : ℚ
  depth : ℚ
deriving DecidableEq

/-- `FitCheckResult` record from the source. -/
structure FitCheckResult where
  fits : Bool
  message : String
  icon : String
  color : String
deriving DecidableEq

/-- `estimatedRoomWidth` constant from the fit-check effect (meters). -/
def estimatedRoomWidth : ℚ := 4

/-- `estimatedRoomHeight` constant from the fit-check effect (meters). -/
def estimatedRoomHeight : ℚ := 14 / 5

/-- `estimatedRoomDepth` constant from the fit-check effect (meters). -/
def estimatedRoomDepth : ℚ := 5

/-- `allFit` local of the fit-check effect: every axis is at most the
corresponding room axis. -/
def allFit (d : Dimensions) : Bool :=
  decide (d.width ≤ estimatedRoomWidth) &&
    decide (d.height ≤ estimatedRoomHeight) &&
    decide (d.depth ≤ estimatedRoomDepth)

/-- `spaceUsage` local of the fit-check effect: largest axis ratio as a
percentage. -/
def spaceUsage (d : Dimensions) : ℚ :=
  max (d.width / estimatedRoomWidth * 100)
    (max (d.height / estimatedRoomHeight * 100)
      (d.depth / estimatedRoomDepth * 100))

/-- The pure classification performed by the fit-check `useEffect` in the
source (`FitChecker.evaluate` in the spec): branch structure and literal
result records are taken verbatim from the code. -/
def fitCheck (d : Dimensions) : FitCheckResult :=
  if !allFit d then
    { fits := false
      message := "Object may not fit here - Too large for space"
      icon := "⚠️"
      color := "#ef4444" }
  else if spaceUsage d > 80 then
    { fits := true
      message := "Tight fit - Limited space around object"
      icon := "⚡"
      color := "#f59e0b" }
  else if spaceUsage d > 60 then
    { fits := true
      message := "Good fit - Comfortable space"
      icon := "✓"
      color := "#10b981" }
  else
    { fits := true
      message := "Perfect fit - Plenty of space!"
      icon := "✓"
      color := "#10b981" }

/-- `ARStatus` union type from the source. -/
inductive ARStatus where
  | idle : ARStatus
  | detecting : ARStatus
  | ready : ARStatus
  | placed : ARStatus
  | sessionStarted : ARStatus
  | failed : ARStatus
deriving DecidableEq

/-- Observable side effects the handlers can emit. `log` is the
diagnostic `console.log`, which the spec excludes from the contract. -/
inductive Effect where
  | log : String → Effect
  | vibrate : List ℕ → Effect
  | alertMsg : String → Effect
  | activateAR : Effect
  | download : Effect
deriving DecidableEq

/-- The two state fields `handleARStatus` touches. -/
structure ARUIState where
  arStatus : ARStatus
  showMeasurements : Bool
deriving DecidableEq

/-- `handleARStatus` from the source: dispatch on the status string of
the viewer event; `vib` says whether `'vibrate' in navigator` holds. -/
def handleARStatus (vib : Bool) (status : String) (s : ARUIState) :
    ARUIState × List Effect :=
  let logE := Effect.log ("AR Status: " ++ status)
  if status = "not-presenting" then
    ({ arStatus := ARStatus.idle, showMeasurements := false }, [logE])
  else if status = "session-started" then
    ({ arStatus := ARStatus.sessionStarted, showMeasurements := true },
      logE :: if vib then [Effect.vibrate [50, 100, 50]] else [])
  else if status = "object-placed" then
    ({ s with arStatus := ARStatus.placed },
      logE :: if vib then [Effect.vibrate [200]] else [])
  else if status = "failed" then
    ({ s with arStatus := ARStatus.failed },
      [logE, Effect.alertMsg "AR session failed. Please try again."])
  else
    (s, [logE])

/-- Process a list of viewer status events through `handleARStatus`,
collecting the emitted effects. -/
def runARStatuses (vib : Bool) : List String → ARUIState →
    ARUIState × List Effect
  | [], s => (s, [])
  | e :: rest, s =>
    let r1 := handleARStatus vib e s
    let r2 := runARStatuses vib rest r1.1
    (r2.1, r1.2 ++ r2.2)

/-- The two state fields the "view in AR" click handler can reach. -/
structure ClickState where
  arStatus : ARStatus
  showConfirmation : Bool
deriving DecidableEq

/-- `handleViewInARClick` from the source: on mobile it opens the
confirmation prompt; otherwise it only logs (the QR affordance is shown
by the external viewer, no state change and no viewer call). -/
def handleViewInARClick (isMobile : Bool) (s : ClickState) :
    ClickState × List Effect :=
  if isMobile then
    ({ s with showConfirmation := true }, [])
  else
    (s, [Effect.log "Desktop: QR code displayed automatically"])

/-- Iterate `handleViewInARClick` over `n` user requests, collecting
effects. -/
def runViewInARClicks (isMobile : Bool) : ℕ → ClickState →
    ClickState × List Effect
  | 0, s => (s, [])
  | n + 1, s =>
    let r1 := handleViewInARClick isMobile s
    let r2 := runViewInARClicks isMobile n r1.1
    (r2.1, r1.2 ++ r2.2)

/-- `supportsWebXR` from the source. `xrPresent` models `'xr' in
navigator`; `query` models the `isSessionSupported('immersive-ar')`
promise, `Except.error` being a rejection caught by the `catch`.  The
result type is plain `Bool`: the function always resolves and never
propagates an error. -/
def supportsWebXR (xrPresent : Bool) (query : Except Unit Bool) : Bool :=
  if xrPresent then
    match query with
    | Except.ok b => b
    | Except.error _ => false
  else false

/-- Environment of one `captureARImage` run: whether the viewer ref is
non-null, whether `modelViewer.toBlob` resolves, whether the DOM steps
between `URL.createObjectURL` and `URL.revokeObjectURL` (createElement,
appendChild, click, removeChild) all complete without throwing, and
whether `'vibrate' in navigator`. -/
structure CaptureEnv where
  viewerPresent : Bool
  toBlobOk : Bool
  domOk : Bool
  vibrateSupported : Bool
deriving DecidableEq

/-- Observable trace of one `captureARImage` run: alerts raised, the
successive values written to `captureStatus` (including the delayed
clear to the empty string), whether a transient object URL was created
and whether it was revoked, whether the download click fired, and the
vibration patterns requested. -/
structure CaptureTrace where
  alerts : List String
  statuses : List String
  urlCreated : Bool
  urlRevoked : Bool
  downloadTriggered : Bool
  vibrations : List (List ℕ)
deriving DecidableEq

/-- `captureARImage` from the source.  The guard branch alerts and
returns; the `try` block sets status `Capturing...`, awaits `toBlob`,
creates the object URL, runs the DOM download sequence, revokes the URL,
reports success and vibrates; any throw lands in `catch`, which only
reports failure — it does not revoke the URL. -/
def captureARImage (e : CaptureEnv) : CaptureTrace :=
  if !e.viewerPresent then
    { alerts := ["Model viewer not ready"]
      statuses := []
      urlCreated := false
      urlRevoked := false
      downloadTriggered := false
      vibrations := [] }
  else if !e.toBlobOk then
    { alerts := []
      statuses := ["Capturing...", "Capture failed ✗", ""]
      urlCreated := false
      urlRevoked := false
      downloadTriggered := false
      vibrations := [] }
  else if !e.domOk then
    { alerts := []
      statuses := ["Capturing...", "Capture failed ✗", ""]
      urlCreated := true
      urlRevoked := false
      downloadTriggered := false
      vibrations := [] }
  else
    { alerts := []
      statuses := ["Capturing...", "Image saved! ✓", ""]
      urlCreated := true
      urlRevoked := true
      downloadTriggered := true
      vibrations := if e.vibrateSupported then [[50, 50, 50]] else [] }

example : scanFloat "abc" = ScanResult.nan := by decide
example : scanFloat "1.0" = ScanResult.finite false ['1'] ['0'] 0 := by decide
example : scanFloat "-.5e2" = ScanResult.finite true [] ['5'] 2 := by decide
example : scanFloat "Infinity" = ScanResult.inf false := by decide
example : scanFloat "  12px" = ScanResult.finite false ['1', '2'] [] 0 := by
  decide

/-- C9: `parseUrlParams` is a total function (it is a Lean `def` with no
failure mode), and on the empty parameter map it returns exactly the
default record `{color := "#FFFFFF", scale := 1.0, pattern := "solid",
material := "default"}`. -/
theorem parseUrlParams_empty_defaults :
    parseUrlParams [] =
      { color := "#FFFFFF", scale := JSNum.num 1, pattern := "solid",
        material := "default" } := by
  have hscale : parseFloat "1.0" = JSNum.num 1 := by
    have hscan : scanFloat "1.0" = ScanResult.finite false ['1'] ['0'] 0 := by
      decide
    show floatValue (scanFloat "1.0") = JSNum.num 1
    rw [hscan]
    simp only [floatValue, JSNum.num.injEq]
    rw [show digitsToNat ['1'] = 1 from rfl,
      show digitsToNat ['0'] = 0 from rfl]
    norm_num
  simp [parseUrlParams, getParam, orDefault, hscale]

/-- C1 (counterexample): with the raw parameter `scale="abc"` the
resolver does not return `scale = 1.0`: JS `parseFloat("abc")` is `NaN`,
and the `|| '1.0'` fallback fires only for an absent or empty value. -/
theorem parseScale_abc_not_one :
    (parseUrlParams [("scale", "abc")]).scale ≠ JSNum.num 1 := by
  decide

/-- C1 (amended): whenever the `scale` key is present with a non-empty
value on which `parseFloat` fails, `parseUrlParams` silently returns
`scale = NaN` (no error is raised: the function is total); the `1.0`
default applies only when the key is absent or its value is empty. -/
theorem parseScale_unparseable_nan (params : List (String × String))
    (v : String) (h1 : getParam params "scale" = some v) (h2 : v ≠ "")
    (h3 : parseFloat v = JSNum.nan) :
    (parseUrlParams params).scale = JSNum.nan := by
  simp only [parseUrlParams, h1, orDefault]
  rw [if_neg h2]
  exact h3

/-- Witness for the amended C1 at the concrete input `scale="abc"`. -/
theorem parseScale_unparseable_nan_witness :
    (parseUrlParams [("scale", "abc")]).scale = JSNum.nan :=
  parseScale_unparseable_nan [("scale", "abc")] "abc" (by decide) (by decide)
    (by decide)

/-- C2: whenever at least one axis strictly exceeds the corresponding
room axis (room 4 × 2.8 × 5), `fitCheck` returns `fits = false` with the
critical record and message "Object may not fit here - Too large for
space", regardless of the other axes. -/
theorem fitCheck_exceeds_critical (d : Dimensions)
    (h : estimatedRoomWidth < d.width ∨ estimatedRoomHeight < d.height ∨
      estimatedRoomDepth < d.depth) :
    fitCheck d =
      { fits := false
        message := "Object may not fit here - Too large for space"
        icon := "⚠️"
        color := "#ef4444" } := by
  have hfit : allFit d = false := by
    rcases h with h | h | h <;> simp [allFit, not_le.mpr h]
  simp [fitCheck, hfit]

/-- Witness for C2 at the spec's end-to-end input `{5, 1, 1}` (width
exceeds the room width 4). -/
theorem fitCheck_exceeds_critical_witness :
    fitCheck ⟨5, 1, 1⟩ =
      { fits := false
        message := "Object may not fit here - Too large for space"
        icon := "⚠️"
        color := "#ef4444" } :=
  fitCheck_exceeds_critical ⟨5, 1, 1⟩
    (Or.inl (by norm_num [estimatedRoomWidth]))

/-- C3: for dimensions that fit, the classification follows `spaceUsage`
(the maximal axis ratio × 100) with strict `>` boundaries: usage > 80 is
the warning record, 60 < usage ≤ 80 the good record (so usage exactly 80
is good, not warning), usage ≤ 60 the excellent record; and the concrete
input `{3.5, 2, 3}` has usage 87.5 and the warning record with
`fits = true`. -/
theorem fitCheck_usage_classification :
    (∀ d : Dimensions, allFit d = true →
      ((80 < spaceUsage d →
          fitCheck d =
            { fits := true
              message := "Tight fit - Limited space around object"
              icon := "⚡"
              color := "#f59e0b" }) ∧
        (60 < spaceUsage d → spaceUsage d ≤ 80 →
          fitCheck d =
            { fits := true
              message := "Good fit - Comfortable space"
              icon := "✓"
              color := "#10b981" }) ∧
        (spaceUsage d ≤ 60 →
          fitCheck d =
            { fits := true
              message := "Perfect fit - Plenty of space!"
              icon := "✓"
              color := "#10b981" }))) ∧
      spaceUsage ⟨7/2, 2, 3⟩ = 175/2 ∧
      fitCheck ⟨7/2, 2, 3⟩ =
        { fits := true
          message := "Tight fit - Limited space around object"
          icon := "⚡"
          color := "#f59e0b" } := by
  have general : ∀ d : Dimensions, allFit d = true →
      ((80 < spaceUsage d →
          fitCheck d =
            { fits := true
              message := "Tight fit - Limited space around object"
              icon := "⚡"
              color := "#f59e0b" }) ∧
        (60 < spaceUsage d → spaceUsage d ≤ 80 →
          fitCheck d =
            { fits := true
              message := "Good fit - Comfortable space"
              icon := "✓"
              color := "#10b981" }) ∧
        (spaceUsage d ≤ 60 →
          fitCheck d =
            { fits := true
              message := "Perfect fit - Plenty of space!"
              icon := "✓"
              color := "#10b981" })) := by
    intro d hfit
    refine ⟨fun h80 => ?_, fun h60 h80 => ?_, fun h60 => ?_⟩
    · simp [fitCheck, hfit, h80]
    · simp [fitCheck, hfit, h60, not_lt.mpr h80]
    · have h80 : ¬ (80 : ℚ) < spaceUsage d :=
        not_lt.mpr (h60.trans (by norm_num))
      simp [fitCheck, hfit, not_lt.mpr h60, h80]
  have hfit : allFit ⟨7/2, 2, 3⟩ = true := by
    simp only [allFit, Bool.and_eq_true, decide_eq_true_eq,
      estimatedRoomWidth, estimatedRoomHeight, estimatedRoomDepth]
    norm_num
  have hu : spaceUsage ⟨7/2, 2, 3⟩ = 175/2 := by
    norm_num [spaceUsage, estimatedRoomWidth, estimatedRoomHeight,
      estimatedRoomDepth, max_def]
  refine ⟨general, hu, (general ⟨7/2, 2, 3⟩ hfit).1 ?_⟩
  rw [hu]
  norm_num

/-- Witness for C3 at a concrete boundary input: dimensions
`{3.2, 2, 3}` have usage exactly 80 and fall into the good branch. -/
theorem fitCheck_usage_classification_witness :
    fitCheck ⟨16/5, 2, 3⟩ =
      { fits := true
        message := "Good fit - Comfortable space"
        icon := "✓"
        color := "#10b981" } := by
  have hfit : allFit ⟨16/5, 2, 3⟩ = true := by
    simp only [allFit, Bool.and_eq_true, decide_eq_true_eq,
      estimatedRoomWidth, estimatedRoomHeight, estimatedRoomDepth]
    norm_num
  have hu : spaceUsage ⟨16/5, 2, 3⟩ = 80 := by
    norm_num [spaceUsage, estimatedRoomWidth, estimatedRoomHeight,
      estimatedRoomDepth, max_def]
  exact (fitCheck_usage_classification.1 ⟨16/5, 2, 3⟩ hfit).2.1
    (by rw [hu]; norm_num) (by rw [hu])

/-- C4 (code evaluated at the failing input): in a run where the viewer
is present and `toBlob` succeeds but a DOM step between URL creation and
revocation throws, the object URL is created and never revoked — the
`catch` path of `captureARImage` does not release it. -/
theorem capture_dom_throw_leaks_url :
    (captureARImage ⟨true, true, false, true⟩).urlCreated = true ∧
      (captureARImage ⟨true, true, false, true⟩).urlRevoked = false := by
  decide

/-- C5: processing the viewer events session-started, object-placed,
not-presenting from the initial state (idle, overlay hidden) ends in
idle with the measurement overlay hidden, whether or not the vibration
API is available. -/
theorem arSequence_ends_idle :
    (runARStatuses true ["session-started", "object-placed", "not-presenting"]
        ⟨ARStatus.idle, false⟩).1 = ⟨ARStatus.idle, false⟩ ∧
      (runARStatuses false ["session-started", "object-placed", "not-presenting"]
        ⟨ARStatus.idle, false⟩).1 = ⟨ARStatus.idle, false⟩ := by
  constructor <;> decide

/-- C6: on a non-mobile session, any number of "view in AR" requests
leaves the whole state unchanged and emits only the diagnostic log — in
particular the state stays `idle` and the viewer's AR activation is
never called. -/
theorem runViewInARClicks_nonmobile (n : ℕ) (s : ClickState) :
    runViewInARClicks false n s =
      (s, List.replicate n
        (Effect.log "Desktop: QR code displayed automatically")) := by
  induction n with
  | zero => rfl
  | succ k ih =>
      simp [runViewInARClicks, handleViewInARClick, ih, List.replicate_succ]

/-- C6: starting from any state whose status is `idle`, every sequence
of non-mobile "view in AR" requests keeps the status `idle` and never
emits the AR-activation effect. -/
theorem nonmobile_request_stays_idle (n : ℕ) (s : ClickState)
    (h : s.arStatus = ARStatus.idle) :
    (runViewInARClicks false n s).1.arStatus = ARStatus.idle ∧
      Effect.activateAR ∉ (runViewInARClicks false n s).2 := by
  rw [runViewInARClicks_nonmobile]
  refine ⟨h, ?_⟩
  simp [List.mem_replicate]

/-- Witness for C6: three non-mobile requests from the initial state. -/
theorem nonmobile_request_stays_idle_witness :
    (runViewInARClicks false 3 ⟨ARStatus.idle, false⟩).1.arStatus =
        ARStatus.idle ∧
      Effect.activateAR ∉
        (runViewInARClicks false 3 ⟨ARStatus.idle, false⟩).2 :=
  nonmobile_request_stays_idle 3 ⟨ARStatus.idle, false⟩ rfl

/-- C7: `supportsWebXR` resolves to `false` whenever the XR API is
absent or the capability query rejects; being a total function into
`Bool`, it never throws or propagates an error to its caller. -/
theorem supportsWebXR_absent_or_failed_false :
    (∀ q : Except Unit Bool, supportsWebXR false q = false) ∧
      ∀ b : Bool, supportsWebXR b (Except.error ()) = false := by
  refine ⟨fun q => rfl, fun b => ?_⟩
  cases b <;> rfl

/-- C8: when no viewer handle is available, `captureARImage` raises the
"Model viewer not ready" notice, triggers no download, creates no URL,
writes no capture status, and returns normally (a total function, so
the failure is not fatal). -/
theorem capture_no_viewer_reports_failure (e : CaptureEnv)
    (h : e.viewerPresent = false) :
    captureARImage e =
      { alerts := ["Model viewer not ready"]
        statuses := []
        urlCreated := false
        urlRevoked := false
        downloadTriggered := false
        vibrations := [] } := by
  simp [captureARImage, h]

/-- Witness for C8 with every other capability present. -/
theorem capture_no_viewer_reports_failure_witness :
    captureARImage ⟨false, true, true, true⟩ =
      { alerts := ["Model viewer not ready"]
        statuses := []
        urlCreated := false
        urlRevoked := false
        downloadTriggered := false
        vibrations := [] } :=
  capture_no_viewer_reports_failure ⟨false, true, true, true⟩ rfl

/-- C10: for any status string other than the four recognized values,
`handleARStatus` leaves the state unchanged and emits only the
diagnostic log — no vibration and no alert. -/
theorem unknownStatus_no_effect (vib : Bool) (status : String)
    (s : ARUIState) (h1 : status ≠ "not-presenting")
    (h2 : status ≠ "session-started") (h3 : status ≠ "object-placed")
    (h4 : status ≠ "failed") :
    handleARStatus vib status s =
      (s, [Effect.log ("AR Status: " ++ status)]) := by
  simp [handleARStatus, h1, h2, h3, h4]

/-- Witness for C10 at the unrecognized status string "quick-look". -/
theorem unknownStatus_no_effect_witness :
    handleARStatus true "quick-look" ⟨ARStatus.ready, true⟩ =
      (⟨ARStatus.ready, true⟩,
        [Effect.log ("AR Status: " ++ "quick-look")]) :=
  unknownStatus_no_effect true "quick-look" ⟨ARStatus.ready, true⟩
    (by decide) (by decide) (by decide) (by decide)
